import Mathlib

/-!
Formal model of the PlaywrightTypeScriptWithAgenticAI test framework.

Each namespace shallowly embeds one source module:

* `Reporter`            — `src/reporters/custom-reporter.ts` (`CustomReporter`)
* `TestDataManager`     — `src/utils/test-data-manager.ts`
* `BasePage`            — `src/pages/base-page.ts`
* `Fixtures`            — `src/fixtures/base-fixtures.ts` and `src/utils/api-client.ts`
  resource lifecycle
* `ApiClient`           — `src/utils/api-client.ts` response processing
* `AccessibilityHelper` — `src/utils/accessibility-helper.ts`

JavaScript strings are modelled as `String` (or `List Char` where line
structure matters), JS numbers as `Nat`/`Int`/`ℚ` as appropriate, and
fallible operations as `Option`.
-/

namespace Reporter

/-- Playwright `TestResult.status` values as delivered to `onTestEnd`. -/
inductive TStatus where
  | passed
  | failed
  | skipped
  | timedOut
  | interrupted
deriving DecidableEq

/-- One entry of `CustomReporter.results`, flattening the `(test, result)`
pair passed to `onTestEnd` (`title`, `status`, `duration`, `error?.message`,
`projectName`). -/
structure ResultRec where
  title : String
  status : TStatus
  duration : Nat
  error : Option String
  projectName : String
deriving DecidableEq

/-- The counter fields of `CustomReporter`. -/
structure ReporterState where
  totalTests : Nat
  passedTests : Nat
  failedTests : Nat
  skippedTests : Nat
  results : List ResultRec
deriving DecidableEq

/-- `onBegin`: counters start at 0 and `totalTests` is set to
`suite.allTests().length`. -/
def onBegin (suiteTestCount : Nat) : ReporterState :=
  { totalTests := suiteTestCount, passedTests := 0, failedTests := 0,
    skippedTests := 0, results := [] }

/-- `onTestEnd`: push the result record, then switch on `result.status`.
`passed`/`failed`/`skipped` bump their counters, `timedOut` bumps
`failedTests`, and any other status (`interrupted`) is not counted. -/
def onTestEnd (s : ReporterState) (r : ResultRec) : ReporterState :=
  let s' := { s with results := s.results ++ [r] }
  match r.status with
  | .passed => { s' with passedTests := s'.passedTests + 1 }
  | .failed => { s' with failedTests := s'.failedTests + 1 }
  | .skipped => { s' with skippedTests := s'.skippedTests + 1 }
  | .timedOut => { s' with failedTests := s'.failedTests + 1 }
  | .interrupted => s'

/-- A whole run: `onBegin` followed by one `onTestEnd` per delivered result. -/
def runReporter (suiteTestCount : Nat) (rs : List ResultRec) : ReporterState :=
  rs.foldl onTestEnd (onBegin suiteTestCount)

/-- Number of delivered results having a given status. -/
def countStatus (st : TStatus) (rs : List ResultRec) : Nat :=
  (rs.filter (fun r => r.status == st)).length

theorem countStatus_cons (st : TStatus) (r : ResultRec) (rs : List ResultRec) :
    countStatus st (r :: rs) =
      countStatus st rs + (if r.status = st then 1 else 0) := by
  simp only [countStatus, List.filter_cons]
  by_cases h : r.status = st
  · simp [h]
  · simp [h]

theorem runReporter_foldl (rs : List ResultRec) : ∀ s : ReporterState,
    rs.foldl onTestEnd s =
      { totalTests := s.totalTests,
        passedTests := s.passedTests + countStatus .passed rs,
        failedTests := s.failedTests + countStatus .failed rs
          + countStatus .timedOut rs,
        skippedTests := s.skippedTests + countStatus .skipped rs,
        results := s.results ++ rs } := by
  induction rs with
  | nil =>
    intro s
    simp [countStatus]
  | cons r rs ih =>
    intro s
    have hstep := ih (onTestEnd s r)
    rw [List.foldl_cons, hstep]
    rcases hst : r.status with _ | _ | _ | _ | _ <;>
      simp [onTestEnd, hst, countStatus_cons] <;> omega

/-- Claim C1 counterexample: deliver a single `timedOut` result to the
reporter. The `failedTests` statistic becomes 1 although no delivered result
has status `failed`: a timed-out result has no bucket of its own, it is
counted into the failed bucket, so the summary statistics do not reflect
one bucket per status. -/
theorem timedOut_counted_as_failed :
    (runReporter 1 [⟨"t1", .timedOut, 5, none, "chromium"⟩]).failedTests = 1
    ∧ countStatus .failed
        (runReporter 1 [⟨"t1", .timedOut, 5, none, "chromium"⟩]).results = 0
    ∧ (1 : Nat) ≠ 0 := by
  refine ⟨rfl, rfl, by decide⟩

/-- Claim C1 (amended): every result delivered to `onTestEnd` is appended to
the results list in order; `passedTests` counts the `passed` results and
`skippedTests` the `skipped` ones, but `failedTests` counts the `failed` and
the `timedOut` results together (there is no separate timeout bucket),
`interrupted` results are not counted at all, and the summary's `totalTests`
is the suite size captured at `onBegin`, not a per-status tally. -/
theorem onTestEnd_bucket_counts (n : Nat) (rs : List ResultRec) :
    (runReporter n rs).totalTests = n
    ∧ (runReporter n rs).passedTests = countStatus .passed rs
    ∧ (runReporter n rs).failedTests
        = countStatus .failed rs + countStatus .timedOut rs
    ∧ (runReporter n rs).skippedTests = countStatus .skipped rs
    ∧ (runReporter n rs).results = rs := by
  rw [runReporter, runReporter_foldl rs (onBegin n)]
  simp [onBegin]

/-- `onEnd`: `this.totalTests > 0 ? (this.passedTests / this.totalTests) * 100 : 0`. -/
def successRateOnEnd (s : ReporterState) : ℚ :=
  if 0 < s.totalTests then ((s.passedTests : ℚ) / (s.totalTests : ℚ)) * 100 else 0

/-- `generateJSONReport`: same guarded expression, recomputed. -/
def successRateJSON (s : ReporterState) : ℚ :=
  if 0 < s.totalTests then ((s.passedTests : ℚ) / (s.totalTests : ℚ)) * 100 else 0

/-- `generateHTMLReport`: same guarded expression, recomputed. -/
def successRateHTML (s : ReporterState) : ℚ :=
  if 0 < s.totalTests then ((s.passedTests : ℚ) / (s.totalTests : ℚ)) * 100 else 0

/-- `generateMetricsReport`: the guarded expression before rounding. -/
def successRateMetricsBase (s : ReporterState) : ℚ :=
  if 0 < s.totalTests then ((s.passedTests : ℚ) / (s.totalTests : ℚ)) * 100 else 0

/-- JavaScript `Math.round` on a non-negative value: round half up. -/
def jsMathRound (q : ℚ) : ℤ := ⌊q + 1 / 2⌋

/-- `generateMetricsReport` stores
`Math.round(successRate * 100) / 100` in `metrics.summary.successRate`. -/
def metricsSummarySuccessRate (s : ReporterState) : ℚ :=
  (jsMathRound (successRateMetricsBase s * 100) : ℚ) / 100

/-- The run used by the C4 counterexample: 3 tests announced, one passed
result delivered, so `passedTests = 1` and `totalTests = 3`. -/
def roundingRun : ReporterState :=
  runReporter 3 [⟨"a", .passed, 1, none, "p"⟩]

/-- Claim C4 counterexample: on a run with 3 total tests and 1 passed test
the metrics report stores 33.33 (the rate rounded to two decimals), which is
not `passedTests / totalTests * 100 = 100 / 3`; so not every emitted summary
carries the exact quotient. -/
theorem metrics_successRate_rounded :
    metricsSummarySuccessRate roundingRun
      ≠ (roundingRun.passedTests : ℚ) / (roundingRun.totalTests : ℚ) * 100 := by
  have hp : roundingRun.passedTests = 1 := rfl
  have ht : roundingRun.totalTests = 3 := rfl
  have hbase : successRateMetricsBase roundingRun = 100 / 3 := by
    rw [successRateMetricsBase, hp, ht]
    norm_num
  have hfloor : jsMathRound (100 / 3 * 100) = 3333 := by
    rw [jsMathRound, Int.floor_eq_iff]
    norm_num
  rw [metricsSummarySuccessRate, hbase, hfloor, hp, ht]
  norm_num

/-- Claim C4 (amended): the console summary, the JSON report and the HTML
report all use the same guarded success rate, equal to
`passedTests / totalTests * 100` when `totalTests > 0` and to 0 when
`totalTests = 0` (the division is never performed on a zero total); the
metrics report stores that value rounded to two decimals
(`Math.round(rate * 100) / 100`), which stays within 1/200 of it. -/
theorem successRate_guarded (s : ReporterState) :
    (successRateJSON s = successRateOnEnd s
      ∧ successRateHTML s = successRateOnEnd s
      ∧ successRateMetricsBase s = successRateOnEnd s)
    ∧ (s.totalTests = 0 → successRateOnEnd s = 0)
    ∧ (0 < s.totalTests →
        successRateOnEnd s = (s.passedTests : ℚ) / (s.totalTests : ℚ) * 100)
    ∧ |metricsSummarySuccessRate s - successRateMetricsBase s| ≤ 1 / 200 := by
  refine ⟨⟨rfl, rfl, rfl⟩, ?_, ?_, ?_⟩
  · intro h
    simp [successRateOnEnd, h]
  · intro h
    simp [successRateOnEnd, h]
  · set b := successRateMetricsBase s with hb
    have h1 : (⌊b * 100 + 1 / 2⌋ : ℚ) ≤ b * 100 + 1 / 2 := Int.floor_le _
    have h2 : b * 100 + 1 / 2 - 1 < (⌊b * 100 + 1 / 2⌋ : ℚ) :=
      Int.sub_one_lt_floor _
    rw [metricsSummarySuccessRate, jsMathRound, ← hb, abs_le]
    constructor <;> linarith

/-- Witness for `successRate_guarded` at a concrete run with 4 announced
tests and one passed result. -/
theorem successRate_guarded_witness :
    0 < (runReporter 4 [⟨"a", .passed, 1, none, "p"⟩]).totalTests
    ∧ successRateOnEnd (runReporter 4 [⟨"a", .passed, 1, none, "p"⟩])
        = ((runReporter 4 [⟨"a", .passed, 1, none, "p"⟩]).passedTests : ℚ)
            / ((runReporter 4 [⟨"a", .passed, 1, none, "p"⟩]).totalTests : ℚ) * 100 :=
  ⟨by decide,
    (successRate_guarded (runReporter 4 [⟨"a", .passed, 1, none, "p"⟩])).2.2.1
      (by decide)⟩

/-- One double-quoted CSV field: `"${value}"` as a character list. -/
def csvField (s : String) : List Char :=
  '"' :: (s.data ++ ['"'])

/-- The string stored in a result record's `status` field. -/
def statusStr : TStatus → String
  | .passed => "passed"
  | .failed => "failed"
  | .skipped => "skipped"
  | .timedOut => "timedOut"
  | .interrupted => "interrupted"

/-- One CSV row:
`"${title}","${status}","${duration}","${projectName}","${error || ''}"`. -/
def csvRow (r : ResultRec) : List Char :=
  csvField r.title ++ ',' :: csvField (statusStr r.status)
    ++ ',' :: csvField (toString r.duration)
    ++ ',' :: csvField r.projectName
    ++ ',' :: csvField (r.error.getD "")

/-- The fixed CSV header line (without its trailing newline). -/
def csvHeaderLine : List Char :=
  "Test Name,Status,Duration (ms),Project,Error".data

/-- JavaScript `Array.prototype.join('\n')`. -/
def jsJoinNl : List (List Char) → List Char
  | [] => []
  | [x] => x
  | x :: y :: ys => x ++ '\n' :: jsJoinNl (y :: ys)

/-- `generateCSVReport`: header line plus newline, then the rows joined
with newlines. -/
def generateCSVReport (rs : List ResultRec) : List Char :=
  csvHeaderLine ++ '\n' :: jsJoinNl (rs.map csvRow)

/-- Split a character list at every newline (the inverse view of the CSV
content as a list of lines). -/
def splitOnNl : List Char → List (List Char)
  | [] => [[]]
  | c :: cs =>
    let r := splitOnNl cs
    if c = '\n' then [] :: r else (c :: r.headI) :: r.tail

theorem splitOnNl_ne_nil (l : List Char) : splitOnNl l ≠ [] := by
  cases l with
  | nil => simp [splitOnNl]
  | cons c cs =>
    simp only [splitOnNl]
    split <;> simp

theorem splitOnNl_append (x ys : List Char) (hx : ∀ c ∈ x, c ≠ '\n') :
    splitOnNl (x ++ ys)
      = (x ++ (splitOnNl ys).headI) :: (splitOnNl ys).tail := by
  induction x with
  | nil =>
    simp only [List.nil_append]
    cases h : splitOnNl ys with
    | nil => exact absurd h (splitOnNl_ne_nil ys)
    | cons a t => simp
  | cons c x ih =>
    have hc : c ≠ '\n' := hx c (by simp)
    have hx' : ∀ d ∈ x, d ≠ '\n' := fun d hd => hx d (by simp [hd])
    simp only [List.cons_append, splitOnNl, if_neg hc, List.append_eq]
    rw [ih hx']
    simp

theorem splitOnNl_joinNl (ls : List (List Char)) (hne : ls ≠ [])
    (hnl : ∀ l ∈ ls, ∀ c ∈ l, c ≠ '\n') :
    splitOnNl (jsJoinNl ls) = ls := by
  induction ls with
  | nil => exact absurd rfl hne
  | cons x ls ih =>
    cases ls with
    | nil =>
      have hx : ∀ c ∈ x, c ≠ '\n' := hnl x (by simp)
      have := splitOnNl_append x [] hx
      simpa [jsJoinNl, splitOnNl] using this
    | cons y ys =>
      have hx : ∀ c ∈ x, c ≠ '\n' := hnl x (by simp)
      have hrest : ∀ l ∈ y :: ys, ∀ c ∈ l, c ≠ '\n' :=
        fun l hl => hnl l (by simp [hl])
      have hih := ih (by simp) hrest
      simp only [jsJoinNl, splitOnNl_append x ('\n' :: jsJoinNl (y :: ys)) hx,
        splitOnNl, if_pos rfl]
      simp [hih]

theorem csvField_getLast (pre : List Char) (s : String) :
    (pre ++ csvField s).getLast? = some '"' := by
  have h1 : csvField s = ('"' :: s.data) ++ ['"'] := by
    simp [csvField]
  rw [h1, ← List.append_assoc, List.getLast?_concat]

/-- Claim C5 (confirmed): the CSV artifact is the fixed header line
`Test Name,Status,Duration (ms),Project,Error` followed by exactly one row
per recorded result, in recording order (splitting the content at newlines
recovers the header and then the rows, provided the field data carries no
newline); every row starts and ends with a double quote, and a result
without an error yields the same row as one whose error is the empty
string. -/
theorem generateCSVReport_lines (rs : List ResultRec) (hne : rs ≠ [])
    (hnl : ∀ r ∈ rs, ∀ c ∈ csvRow r, c ≠ '\n') :
    splitOnNl (generateCSVReport rs) = csvHeaderLine :: rs.map csvRow
    ∧ (∀ r : ResultRec,
        (csvRow r).head? = some '"' ∧ (csvRow r).getLast? = some '"')
    ∧ (∀ r : ResultRec, r.error = none →
        csvRow r = csvRow { r with error := some "" }) := by
  refine ⟨?_, ?_, ?_⟩
  · have hhdr : ∀ c ∈ csvHeaderLine, c ≠ '\n' := by decide
    have hrows : ∀ l ∈ rs.map csvRow, ∀ c ∈ l, c ≠ '\n' := by
      intro l hl
      rcases List.mem_map.mp hl with ⟨r, hr, rfl⟩
      exact hnl r hr
    have hmaps : rs.map csvRow ≠ [] := by
      simpa using hne
    rw [generateCSVReport,
      splitOnNl_append csvHeaderLine ('\n' :: jsJoinNl (rs.map csvRow)) hhdr]
    simp only [splitOnNl, if_pos rfl]
    rw [splitOnNl_joinNl (rs.map csvRow) hmaps hrows]
    simp
  · intro r
    constructor
    · simp [csvRow, csvField]
    · have h : csvRow r
          = (csvField r.title ++ ',' :: csvField (statusStr r.status)
              ++ ',' :: csvField (toString r.duration)
              ++ ',' :: csvField r.projectName ++ [','])
            ++ csvField (r.error.getD "") := by
        simp [csvRow]
      rw [h]
      exact csvField_getLast _ _
  · intro r h
    simp [csvRow, csvField, h]

/-- Witness for `generateCSVReport_lines` on a one-result run. -/
theorem generateCSVReport_lines_witness :
    splitOnNl (generateCSVReport [⟨"test one", .passed, 12, none, "chromium"⟩])
      = csvHeaderLine
          :: [⟨"test one", .passed, 12, none, "chromium"⟩].map csvRow :=
  (generateCSVReport_lines [⟨"test one", .passed, 12, none, "chromium"⟩]
    (by simp) (by decide)).1

end Reporter

namespace TestDataManager

/-- `Address` record from `src/types/test-data.ts`. -/
structure Address where
  street : String
  city : String
  state : String
  country : String
  zipCode : String
deriving DecidableEq

/-- `UserPreferences` record. -/
structure UserPreferences where
  language : String
  theme : String
  notifications : Bool
  newsletter : Bool
deriving DecidableEq

/-- `UserProfile` record. -/
structure UserProfile where
  firstName : String
  lastName : String
  dateOfBirth : String
  address : Address
  preferences : UserPreferences
deriving DecidableEq

/-- `User` record (`role` is the literal union `'admin' | 'user' | 'guest'`,
modelled as its string). -/
structure User where
  id : String
  username : String
  email : String
  password : String
  role : String
  profile : UserProfile
deriving DecidableEq

/-- `SearchQuery` record (`category` and `expectedBehavior` are literal
unions, modelled as their strings). -/
structure SearchQuery where
  id : String
  query : String
  expectedResults : Nat
  category : String
  description : String
  expectedBehavior : String
deriving DecidableEq

/-- `UrlData` record. -/
structure UrlData where
  id : String
  name : String
  url : String
  environment : String
  expectedStatus : Nat
  timeout : Nat
deriving DecidableEq

/-- The nested `credentials` object of an `Environment` record. -/
structure Credentials where
  username : String
  password : String
deriving DecidableEq

/-- `Environment` record. -/
structure EnvironmentCfg where
  name : String
  baseUrl : String
  apiUrl : String
  features : List String
  credentials : Credentials
deriving DecidableEq

/-- `TestData` record. -/
structure TestData where
  users : List User
  searchQueries : List SearchQuery
  urls : List UrlData
  environments : List EnvironmentCfg
deriving DecidableEq

/-- JavaScript `'c'.repeat(n)`. -/
def jsRepeat (c : Char) (n : Nat) : String :=
  ⟨List.replicate n c⟩

/-- `TestDataManager.getDefaultTestData`, translated field by field. -/
def getDefaultTestData : TestData :=
  { users :=
      [{ id := "user1", username := "testuser1",
         email := "testuser1@example.com", password := "password123",
         role := "user",
         profile :=
           { firstName := "Test", lastName := "User",
             dateOfBirth := "1990-01-01",
             address :=
               { street := "123 Test St", city := "Test City",
                 state := "Test State", country := "Test Country",
                 zipCode := "12345" },
             preferences :=
               { language := "en", theme := "light",
                 notifications := true, newsletter := false } } }],
    searchQueries :=
      [{ id := "valid-search-1", query := "playwright testing",
         expectedResults := 10, category := "valid",
         description := "Valid search for playwright testing",
         expectedBehavior := "pass" },
       { id := "valid-search-2", query := "typescript automation",
         expectedResults := 10, category := "valid",
         description := "Valid search for typescript automation",
         expectedBehavior := "pass" },
       { id := "special-chars-search", query := "test @#$%^&*()",
         expectedResults := 5, category := "edge-case",
         description := "Search with special characters",
         expectedBehavior := "pass" },
       { id := "long-query-search", query := jsRepeat 'a' 1000,
         expectedResults := 0, category := "edge-case",
         description := "Extremely long search query",
         expectedBehavior := "fail" },
       { id := "pagination-test", query := "test pagination fail",
         expectedResults := 10, category := "performance",
         description := "Search result pagination test that should fail",
         expectedBehavior := "fail" }],
    urls :=
      [{ id := "google-home", name := "Google Home Page",
         url := "https://www.google.com", environment := "prod",
         expectedStatus := 200, timeout := 30000 }],
    environments :=
      [{ name := "staging", baseUrl := "https://www.google.com",
         apiUrl := "https://jsonplaceholder.typicode.com",
         features := ["search", "images", "maps"],
         credentials :=
           { username := "staging_user", password := "staging_pass" } },
       { name := "prod", baseUrl := "https://www.google.com",
         apiUrl := "https://jsonplaceholder.typicode.com",
         features := ["search", "images", "maps", "news"],
         credentials :=
           { username := "prod_user", password := "prod_pass" } }] }

/-- The file-system facts `loadTestData` consults. A parse outcome `none`
models `readFileSync`/`JSON.parse` throwing; `some none` models the file
parsing successfully to the JSON value `null` (`JSON.parse("null")`);
`some (some d)` models a successful parse to data `d`. -/
structure DataFS where
  envFileExists : Bool
  defaultFileExists : Bool
  envParse : Option (Option TestData)
  defaultParse : Option (Option TestData)

/-- `TestDataManager.loadTestData` (the body of `initialize`): prefer the
environment-specific file when it exists, otherwise the default file; on a
read/parse exception the `catch` falls back to `getDefaultTestData`, and
when no file exists the `else` branch does the same. The resulting field
`this.testData` is `Option TestData`. -/
def loadTestData (fs : DataFS) : Option TestData :=
  if fs.envFileExists then
    match fs.envParse with
    | none => some getDefaultTestData
    | some v => v
  else if fs.defaultFileExists then
    match fs.defaultParse with
    | none => some getDefaultTestData
    | some v => v
  else some getDefaultTestData

/-- `getUsers`: `this.testData?.users || []`. -/
def getUsers (testData : Option TestData) : List User :=
  match testData with
  | some d => d.users
  | none => []

/-- `getSearchQueries`: `this.testData?.searchQueries || []`. -/
def getSearchQueries (testData : Option TestData) : List SearchQuery :=
  match testData with
  | some d => d.searchQueries
  | none => []

/-- `getUrls`: `this.testData?.urls || []`. -/
def getUrls (testData : Option TestData) : List UrlData :=
  match testData with
  | some d => d.urls
  | none => []

/-- `getEnvironment`: `this.testData?.environments.find(env => env.name === name)`. -/
def getEnvironment (testData : Option TestData) (name : String) :
    Option EnvironmentCfg :=
  match testData with
  | some d => d.environments.find? (fun env => env.name == name)
  | none => none

/-- `getSearchQueriesByBehavior`:
`this.testData?.searchQueries.filter(q => q.expectedBehavior === behavior) || []`. -/
def getSearchQueriesByBehavior (testData : Option TestData)
    (behavior : String) : List SearchQuery :=
  match testData with
  | some d => d.searchQueries.filter (fun q => q.expectedBehavior == behavior)
  | none => []

/-- Claim C3 counterexample: when only the default data file exists and its
content is the valid JSON document `null`, `JSON.parse` succeeds with `null`,
so `loadTestData` assigns `null` to `this.testData`: after `initialize` the
loaded test data is NOT non-null (the getters then fall back to `[]`). -/
theorem loadTestData_null_json :
    loadTestData ⟨false, true, none, some none⟩ = none
    ∧ getUsers (loadTestData ⟨false, true, none, some none⟩) = [] :=
  ⟨rfl, rfl⟩

/-- Claim C3 (amended): `initialize` never throws. When the
environment-specific file is missing it falls back to the default file; when
no file exists, or reading/parsing throws, it falls back to the built-in
default test data. The loaded test data is non-null in every case except
one: an existing data file whose content parses successfully to the JSON
value `null` leaves it null. When it is non-null the getters return data
drawn from it, and when it is null they return the empty list (or no
result for `getEnvironment`). -/
theorem loadTestData_fallbacks (fs : DataFS) :
    (fs.envFileExists = false → fs.defaultFileExists = false →
        loadTestData fs = some getDefaultTestData)
    ∧ (fs.envFileExists = true → fs.envParse = none →
        loadTestData fs = some getDefaultTestData)
    ∧ (fs.envFileExists = false → fs.defaultFileExists = true →
        fs.defaultParse = none → loadTestData fs = some getDefaultTestData)
    ∧ (∀ d, fs.envFileExists = true → fs.envParse = some (some d) →
        loadTestData fs = some d)
    ∧ (∀ d, fs.envFileExists = false → fs.defaultFileExists = true →
        fs.defaultParse = some (some d) → loadTestData fs = some d)
    ∧ (loadTestData fs = none ↔
        (fs.envFileExists = true ∧ fs.envParse = some none)
        ∨ (fs.envFileExists = false ∧ fs.defaultFileExists = true
            ∧ fs.defaultParse = some none))
    ∧ (∀ d, getUsers (some d) = d.users
        ∧ getSearchQueries (some d) = d.searchQueries
        ∧ getUrls (some d) = d.urls
        ∧ ∀ name, getEnvironment (some d) name
            = d.environments.find? (fun env => env.name == name))
    ∧ (getUsers none = [] ∧ getSearchQueries none = [] ∧ getUrls none = []
        ∧ ∀ name, getEnvironment none name = none) := by
  obtain ⟨e, dfe, ep, dp⟩ := fs
  refine ⟨?_, ?_, ?_, ?_, ?_, ?_, ?_, ?_⟩
  · rintro rfl rfl
    rfl
  · rintro rfl rfl
    rfl
  · rintro rfl rfl rfl
    rfl
  · rintro d rfl rfl
    rfl
  · rintro d rfl rfl rfl
    rfl
  · cases e
    · cases dfe
      · simp [loadTestData]
      · cases dp with
        | none => simp [loadTestData]
        | some v => cases v <;> simp [loadTestData]
    · cases ep with
      | none => simp [loadTestData]
      | some v => cases v <;> simp [loadTestData]
  · intro d
    exact ⟨rfl, rfl, rfl, fun _ => rfl⟩
  · exact ⟨rfl, rfl, rfl, fun _ => rfl⟩

/-- Witness for `loadTestData_fallbacks`: with no data file present at all,
loading yields the built-in default test data. -/
theorem loadTestData_fallbacks_witness :
    loadTestData ⟨false, false, none, none⟩ = some getDefaultTestData :=
  (loadTestData_fallbacks ⟨false, false, none, none⟩).1 rfl rfl

set_option maxRecDepth 8192 in
/-- Claim C6 (confirmed): `getSearchQueriesByBehavior` returns exactly the
loaded queries whose `expectedBehavior` equals the argument, in order, and
on the built-in default data the behavior `"fail"` selects precisely the
1000-character `long-query-search` entry (with `expectedResults` 0) and the
`pagination-test` entry — the intentionally-failing demo material. -/
theorem searchQueriesByBehavior_spec :
    (∀ (d : TestData) (b : String) (q : SearchQuery),
        q ∈ getSearchQueriesByBehavior (some d) b ↔
          q ∈ d.searchQueries ∧ q.expectedBehavior = b)
    ∧ (∀ (d : TestData) (b : String),
        (getSearchQueriesByBehavior (some d) b).Sublist d.searchQueries)
    ∧ (getSearchQueriesByBehavior (some getDefaultTestData) "fail").map
        (fun q => q.id) = ["long-query-search", "pagination-test"]
    ∧ (getSearchQueriesByBehavior (some getDefaultTestData) "fail").map
        (fun q => q.query.length) = [1000, 20]
    ∧ (getSearchQueriesByBehavior (some getDefaultTestData) "fail").map
        (fun q => q.expectedResults) = [0, 10] := by
  refine ⟨?_, ?_, ?_, ?_, ?_⟩
  · intro d b q
    simp [getSearchQueriesByBehavior, List.mem_filter]
  · intro d b
    exact List.filter_sublist _
  · rfl
  · decide
  · rfl

end TestDataManager

namespace BasePage

/-- Observable outcome of running one interaction helper against a page:
whether it completed without surfacing an error, how many times the
underlying action was attempted, and how many 1-second
(`waitForTimeout(1000)`) sleeps were taken. -/
structure RunOut where
  success : Bool
  attempts : Nat
  sleeps : Nat
deriving DecidableEq

/-- The retry loop shared verbatim by `BasePage.clickElement` and
`BasePage.fillInput`:
`for (let i = 0; i < retries; i++) { try { ...; return } catch (e) { if (i === retries - 1) throw e; warn; waitForTimeout(1000) } }`.
`ok i` tells whether the i-th attempt of the underlying action succeeds;
the first argument is the loop index, the second the remaining iterations. -/
def retryLoop (ok : Nat → Bool) : Nat → Nat → RunOut
  | _, 0 => { success := true, attempts := 0, sleeps := 0 }
  | i, n + 1 =>
    if ok i then { success := true, attempts := 1, sleeps := 0 }
    else if n = 0 then { success := false, attempts := 1, sleeps := 0 }
    else
      let r := retryLoop ok (i + 1) n
      { success := r.success, attempts := r.attempts + 1,
        sleeps := r.sleeps + 1 }

/-- `BasePage.clickElement(locator, retries = 3)`. -/
def clickElement (ok : Nat → Bool) (retries : Nat) : RunOut :=
  retryLoop ok 0 retries

/-- `BasePage.fillInput(locator, value, retries = 3)` (same loop body). -/
def fillInput (ok : Nat → Bool) (retries : Nat) : RunOut :=
  retryLoop ok 0 retries

/-- `BasePage.pressKey(key)`: a single `keyboard.press` with no try/catch,
no retry and no sleep — a failure surfaces immediately. -/
def pressKey (ok : Nat → Bool) : RunOut :=
  { success := ok 0, attempts := 1, sleeps := 0 }

/-- Claim C2 counterexample: `pressKey` is a UI interaction helper, yet on a
page where the press always fails it performs exactly one attempt and zero
sleeps, while `clickElement` under the same conditions performs three
attempts — the retry policy is not applied uniformly to every UI
interaction helper. -/
theorem pressKey_no_retry :
    (pressKey (fun _ => false)).attempts = 1
    ∧ (pressKey (fun _ => false)).sleeps = 0
    ∧ (clickElement (fun _ => false) 3).attempts = 3
    ∧ (1 : Nat) ≠ 3 := by
  refine ⟨rfl, rfl, rfl, by decide⟩

/-- Claim C2 (amended): only the click and fill helpers
(`BasePage.clickElement`, `BasePage.fillInput`) carry the retry policy, and
it makes at most 3 total attempts (not 3 retries after a failure) with a
1-second sleep between consecutive attempts, surfacing the failure only
when the third attempt fails; other interaction helpers such as
`BasePage.pressKey` perform their action exactly once with no retry and
no sleep. -/
theorem retry_characterization (ok : Nat → Bool) :
    clickElement ok 3 =
      (if ok 0 then { success := true, attempts := 1, sleeps := 0 }
       else if ok 1 then { success := true, attempts := 2, sleeps := 1 }
       else if ok 2 then { success := true, attempts := 3, sleeps := 2 }
       else { success := false, attempts := 3, sleeps := 2 })
    ∧ fillInput ok 3 = clickElement ok 3
    ∧ (clickElement ok 3).success = (ok 0 || ok 1 || ok 2)
    ∧ (clickElement ok 3).attempts ≤ 3
    ∧ (clickElement ok 3).sleeps = (clickElement ok 3).attempts - 1
    ∧ pressKey ok = { success := ok 0, attempts := 1, sleeps := 0 } := by
  have h : clickElement ok 3 =
      (if ok 0 then { success := true, attempts := 1, sleeps := 0 }
       else if ok 1 then { success := true, attempts := 2, sleeps := 1 }
       else if ok 2 then { success := true, attempts := 3, sleeps := 2 }
       else { success := false, attempts := 3, sleeps := 2 } : RunOut) := by
    rcases h0 : ok 0 <;> rcases h1 : ok 1 <;> rcases h2 : ok 2 <;>
      simp [clickElement, retryLoop, h0, h1, h2]
  refine ⟨h, rfl, ?_, ?_, ?_, rfl⟩
  · rw [h]
    rcases h0 : ok 0 <;> rcases h1 : ok 1 <;> rcases h2 : ok 2 <;> simp
  · rw [h]
    rcases ok 0 <;> rcases ok 1 <;> rcases ok 2 <;> simp
  · rw [h]
    rcases ok 0 <;> rcases ok 1 <;> rcases ok 2 <;> simp

end BasePage

namespace Fixtures

/-- The context-related state of an `ApiClient` instance: `apiContext` is
the stored `APIRequestContext | null`, `openContexts` the request contexts
created by `request.newContext` and not yet disposed (identified by
allocation order). -/
structure ClientState where
  nextId : Nat
  apiContext : Option Nat
  openContexts : List Nat
deriving DecidableEq

/-- A freshly constructed `ApiClient`: `this.apiContext = null`. -/
def initialClient : ClientState :=
  { nextId := 0, apiContext := none, openContexts := [] }

/-- `ApiClient.initialize`: `this.apiContext = await request.newContext(...)`. -/
def clientInitialize (s : ClientState) : ClientState :=
  { nextId := s.nextId + 1, apiContext := some s.nextId,
    openContexts := s.nextId :: s.openContexts }

/-- `ApiClient.getContext`: initialize only when no context is stored. -/
def getContext (s : ClientState) : ClientState :=
  match s.apiContext with
  | none => clientInitialize s
  | some _ => s

/-- `ApiClient.cleanup`: `if (this.apiContext) { await this.apiContext.dispose(); this.apiContext = null }`. -/
def clientCleanup (s : ClientState) : ClientState :=
  match s.apiContext with
  | some c =>
    { nextId := s.nextId, apiContext := none,
      openContexts := s.openContexts.erase c }
  | none => s

theorem clientCleanup_none (s : ClientState) (h : s.apiContext = none) :
    clientCleanup s = s := by
  obtain ⟨n, ctx, o⟩ := s
  change ctx = none at h
  subst h
  rfl

theorem clientCleanup_some (s : ClientState) (c : Nat)
    (h : s.apiContext = some c) :
    clientCleanup s =
      { nextId := s.nextId, apiContext := none,
        openContexts := s.openContexts.erase c } := by
  obtain ⟨n, ctx, o⟩ := s
  change ctx = some c at h
  subst h
  rfl

/-- The `ApiClient` calls a test body can make through the fixture: the five
HTTP helpers (each of which calls `getContext`) and an explicit `cleanup`. -/
inductive ClientOp where
  | getReq
  | postReq
  | putReq
  | deleteReq
  | patchReq
  | cleanupReq
deriving DecidableEq

/-- Effect of one client call on the context state. -/
def applyClientOp (s : ClientState) (op : ClientOp) : ClientState :=
  match op with
  | .cleanupReq => clientCleanup s
  | _ => getContext s

/-- The `apiClient` fixture of `base-fixtures.ts`: construct the client, run
the test body (`await use(apiClient)`), then `await apiClient.cleanup()`. -/
def apiClientFixture (ops : List ClientOp) : ClientState :=
  clientCleanup (ops.foldl applyClientOp initialClient)

/-- Pool of browser contexts: `openList` holds the ids of contexts created
by `browser.newContext` and not yet closed. -/
structure ContextPool where
  nextId : Nat
  openList : List Nat
deriving DecidableEq

/-- `browser.newContext(contextOptions)`. -/
def newContext (p : ContextPool) : Nat × ContextPool :=
  (p.nextId, { nextId := p.nextId + 1, openList := p.nextId :: p.openList })

/-- `context.close()`. -/
def closeContext (p : ContextPool) (c : Nat) : ContextPool :=
  { p with openList := p.openList.erase c }

/-- The `context` fixture of `base-fixtures.ts`: create the context, attach
listeners, run the body (`await use(context)`), then `await context.close()`. -/
def contextFixture (p : ContextPool) : Nat × ContextPool :=
  let (ctx, p1) := newContext p
  (ctx, closeContext p1 ctx)

/-- The fixture invariant: the open request contexts are exactly the one
stored in `apiContext`, if any. -/
def clientInv (s : ClientState) : Prop :=
  s.openContexts = s.apiContext.toList

theorem applyClientOp_inv (s : ClientState) (op : ClientOp)
    (h : clientInv s) : clientInv (applyClientOp s op) := by
  obtain ⟨n, ctx, o⟩ := s
  rcases op <;> rcases ctx with _ | c <;>
    simp_all [clientInv, applyClientOp, getContext, clientCleanup,
      clientInitialize]

theorem foldl_clientOps_inv (ops : List ClientOp) :
    ∀ s : ClientState, clientInv s →
      clientInv (ops.foldl applyClientOp s) := by
  induction ops with
  | nil => intro s h; exact h
  | cons op ops ih =>
    intro s h
    exact ih (applyClientOp s op) (applyClientOp_inv s op h)

/-- Claim C7 (confirmed): whatever sequence of client calls a test body
makes through the `apiClient` fixture, the fixture's final `cleanup`
leaves the stored context null and no request context open; and the
`context` fixture closes the browser context it created, leaving the pool
exactly as it found it (its fresh context is not open afterwards). -/
theorem fixture_teardown_releases :
    (∀ ops : List ClientOp,
        (apiClientFixture ops).apiContext = none
        ∧ (apiClientFixture ops).openContexts = [])
    ∧ (∀ p : ContextPool, (contextFixture p).2.openList = p.openList)
    ∧ (∀ p : ContextPool, p.nextId ∉ p.openList →
        (contextFixture p).1 ∉ (contextFixture p).2.openList) := by
  refine ⟨?_, ?_, ?_⟩
  · intro ops
    have hinv : clientInv (ops.foldl applyClientOp initialClient) :=
      foldl_clientOps_inv ops initialClient (by simp [clientInv, initialClient])
    rw [apiClientFixture]
    rcases hc : (ops.foldl applyClientOp initialClient).apiContext with _ | c
    · rw [clientInv, hc] at hinv
      rw [clientCleanup_none _ hc]
      exact ⟨hc, by simpa using hinv⟩
    · rw [clientInv, hc] at hinv
      rw [clientCleanup_some _ c hc]
      refine ⟨rfl, ?_⟩
      simp only [Option.toList] at hinv
      simp [hinv]
  · intro p
    simp [contextFixture, newContext, closeContext]
  · intro p hp
    simpa [contextFixture, newContext, closeContext] using hp

/-- Witness for `fixture_teardown_releases` on a body that makes two GET
requests and one POST request from an empty pool. -/
theorem fixture_teardown_releases_witness :
    (apiClientFixture [.getReq, .getReq, .postReq]).apiContext = none
    ∧ (0 : Nat) ∉ (⟨0, []⟩ : ContextPool).openList
    ∧ (contextFixture ⟨0, []⟩).1 ∉ (contextFixture ⟨0, []⟩).2.openList :=
  ⟨(fixture_teardown_releases.1 [.getReq, .getReq, .postReq]).1,
    by decide,
    fixture_teardown_releases.2.2 ⟨0, []⟩ (by decide)⟩

end Fixtures

namespace ApiClient

/-- JSON-like values a response body can carry. Arrays are not modelled:
the repository's response data of interest is nested objects and scalars,
and the claims under study quantify over objects. -/
inductive JsVal where
  | null
  | boolVal (b : Bool)
  | num (n : Int)
  | str (s : String)
  | obj (fields : List (String × JsVal))

/-- The `data` field of a processed response: parsed JSON body, raw text
body, or `null` when body parsing failed. -/
inductive RespData where
  | json (v : JsVal)
  | text (s : String)
  | nullData

/-- What the Playwright `APIResponse` offers `processResponse`:
`jsonResult = none` models `response.json()` throwing, `textResult = none`
models `response.text()` throwing. -/
structure RawResponse where
  status : Nat
  statusText : String
  headers : List (String × String)
  jsonResult : Option JsVal
  textResult : Option String

/-- The record `processResponse` returns (the `ApiResponse<T>` interface):
exactly `status`, `statusText`, `headers`, `data` and `responseTime`. -/
structure ApiResponse where
  status : Nat
  statusText : String
  headers : List (String × String)
  data : RespData
  responseTime : Nat

/-- JavaScript `hay.includes(sub)`: substring containment. -/
def jsIncludes (hay sub : String) : Bool :=
  go sub.data hay.data
where
  go (sub : List Char) : List Char → Bool
    | [] => sub.isEmpty
    | c :: t => sub.isPrefixOf (c :: t) || go sub t

/-- `ApiClient.processResponse`: capture status, statusText and headers,
compute `responseTime = Date.now() - startTime`, and parse the body inside
a `try`: the JSON body when the `content-type` header contains
`application/json`, the text body otherwise, and `null` when the body
parse throws. -/
def processResponse (r : RawResponse) (startTime now : Nat) : ApiResponse :=
  let responseTime := now - startTime
  let contentType := (r.headers.lookup "content-type").getD ""
  let data :=
    if jsIncludes contentType "application/json" then
      match r.jsonResult with
      | some v => RespData.json v
      | none => RespData.nullData
    else
      match r.textResult with
      | some s => RespData.text s
      | none => RespData.nullData
  { status := r.status, statusText := r.statusText, headers := r.headers,
    data := data, responseTime := responseTime }

/-- Claim C8 (confirmed): `processResponse` is total and returns a record
with exactly the five fields, preserving status, statusText and headers and
setting `responseTime = now - startTime`; `data` is the parsed JSON body
when the content-type contains `application/json`, the raw text body
otherwise, and null whenever the chosen body parse throws — the failure
never propagates. -/
theorem processResponse_total (r : RawResponse) (startTime now : Nat) :
    (processResponse r startTime now).status = r.status
    ∧ (processResponse r startTime now).statusText = r.statusText
    ∧ (processResponse r startTime now).headers = r.headers
    ∧ (processResponse r startTime now).responseTime = now - startTime
    ∧ (∀ v, jsIncludes ((r.headers.lookup "content-type").getD "")
          "application/json" = true →
        r.jsonResult = some v →
        (processResponse r startTime now).data = RespData.json v)
    ∧ (jsIncludes ((r.headers.lookup "content-type").getD "")
          "application/json" = true →
        r.jsonResult = none →
        (processResponse r startTime now).data = RespData.nullData)
    ∧ (∀ s, jsIncludes ((r.headers.lookup "content-type").getD "")
          "application/json" = false →
        r.textResult = some s →
        (processResponse r startTime now).data = RespData.text s)
    ∧ (jsIncludes ((r.headers.lookup "content-type").getD "")
          "application/json" = false →
        r.textResult = none →
        (processResponse r startTime now).data = RespData.nullData) := by
  refine ⟨rfl, rfl, rfl, rfl, ?_, ?_, ?_, ?_⟩
  · intro v hct hj
    simp [processResponse, hct, hj]
  · intro hct hj
    simp [processResponse, hct, hj]
  · intro s hct ht
    simp [processResponse, hct, ht]
  · intro hct ht
    simp [processResponse, hct, ht]

/-- Witness for `processResponse_total` on a JSON response with a charset
parameter in its content-type. -/
theorem processResponse_total_witness :
    (RawResponse.mk 200 "OK"
        [("content-type", "application/json; charset=utf-8")]
        (some (.obj [("id", .num 1)])) (some "ignored")).jsonResult
      = some (.obj [("id", .num 1)])
    ∧ (processResponse
        (RawResponse.mk 200 "OK"
          [("content-type", "application/json; charset=utf-8")]
          (some (.obj [("id", .num 1)])) (some "ignored")) 100 150).data
      = RespData.json (.obj [("id", .num 1)]) :=
  ⟨rfl,
    (processResponse_total
        (RawResponse.mk 200 "OK"
          [("content-type", "application/json; charset=utf-8")]
          (some (.obj [("id", .num 1)])) (some "ignored")) 100 150).2.2.2.2.1
      (.obj [("id", .num 1)]) (by decide) rfl⟩

/-- JavaScript `path.split('.')` (a path with no dot yields one segment;
the empty string yields one empty segment). -/
def splitDotAux (acc : List Char) : List Char → List (List Char)
  | [] => [acc.reverse]
  | c :: cs =>
    if c = '.' then acc.reverse :: splitDotAux [] cs
    else splitDotAux (c :: acc) cs

/-- `path.split('.')` on a `String`. -/
def jsSplitDot (s : String) : List String :=
  (splitDotAux [] s.data).map List.asString

/-- The JavaScript value stored in a processed response's `data` field. -/
def dataToJs : RespData → JsVal
  | .json v => v
  | .text s => .str s
  | .nullData => .null

/-- The loop body of `ApiClient.extractValue`:
`for (const key of keys) { if (value && typeof value === 'object' && key in value) value = value[key]; else return null }`.
In the array-free value model, the guard holds exactly for objects
(`null` is falsy; booleans, numbers and strings fail the `typeof` test). -/
def extractLoop : List String → JsVal → JsVal
  | [], v => v
  | k :: ks, v =>
    match v with
    | .obj fields =>
      match fields.lookup k with
      | some v' => extractLoop ks v'
      | none => .null
    | _ => .null

/-- `ApiClient.extractValue(response, path)`. -/
def extractValue (response : ApiResponse) (path : String) : JsVal :=
  extractLoop (jsSplitDot path) (dataToJs response.data)

/-- Looking one path segment up in a value, following the claim's words:
defined only on objects, absent otherwise. -/
def getFieldSpec (k : String) : JsVal → Option JsVal
  | .obj fields => fields.lookup k
  | _ => none

/-- What the claim says `extractValue` computes: follow each segment
through nested objects, and produce `null` as soon as a segment is absent
or the current value is not an object. -/
def specExtract (keys : List String) (v : JsVal) : JsVal :=
  (keys.foldlM (fun acc k => getFieldSpec k acc) v).getD JsVal.null

theorem extractLoop_eq_specExtract (keys : List String) (v : JsVal) :
    extractLoop keys v = specExtract keys v := by
  induction keys generalizing v with
  | nil => simp [extractLoop, specExtract]
  | cons k ks ih =>
    rcases v with _ | b | n | s | fields
    · rfl
    · rfl
    · rfl
    · rfl
    · have hg : getFieldSpec k (.obj fields) = fields.lookup k := rfl
      simp only [extractLoop, specExtract, List.foldlM_cons, hg]
      rcases h : fields.lookup k with _ | v'
      · simp [h]
      · simp [h, ih v', specExtract]

/-- Claim C9 (confirmed): for every response and every dot-separated path,
`extractValue` follows each path segment through nested objects starting
from `response.data` and returns null as soon as a segment is absent or the
current value is not an object; it is a total function (it never throws). -/
theorem extractValue_follows_path :
    (∀ (keys : List String) (v : JsVal), extractLoop keys v = specExtract keys v)
    ∧ (∀ (response : ApiResponse) (path : String),
        extractValue response path
          = specExtract (jsSplitDot path) (dataToJs response.data)) :=
  ⟨extractLoop_eq_specExtract,
    fun response path =>
      extractLoop_eq_specExtract (jsSplitDot path) (dataToJs response.data)⟩

end ApiClient

namespace AccessibilityHelper

/-- The inputs `generateAccessibilityReport` aggregates: the `passed` flag
of each of the six bespoke checks, plus the axe scan's violation list. -/
structure ReportInput where
  keyboardNavigationPassed : Bool
  colorContrastPassed : Bool
  imageAltTextPassed : Bool
  formAccessibilityPassed : Bool
  headingStructurePassed : Bool
  ariaLandmarksPassed : Bool
  axeViolations : List String

/-- The `checks` array built in `generateAccessibilityReport`: the six
`passed` flags and `axeResults.violations.length === 0`. -/
def checks (a : ReportInput) : List Bool :=
  [a.keyboardNavigationPassed, a.colorContrastPassed, a.imageAltTextPassed,
   a.formAccessibilityPassed, a.headingStructurePassed,
   a.ariaLandmarksPassed, a.axeViolations.length == 0]

/-- `overallScore = (checks.filter(Boolean).length / checks.length) * 100`. -/
def overallScore (a : ReportInput) : ℚ :=
  ((((checks a).filter (fun b => b)).length : ℚ)
    / ((checks a).length : ℚ)) * 100

theorem filter_true_length_eq_length (l : List Bool) :
    ((l.filter (fun b => b)).length = l.length) ↔ ∀ b ∈ l, b = true := by
  induction l with
  | nil => simp
  | cons b l ih =>
    cases b
    · have hle := List.length_filter_le (fun b => b) l
      simp only [List.filter_cons]
      constructor
      · intro h
        simp at h
        omega
      · intro h
        exact absurd (h false (by simp)) (by simp)
    · simp only [List.filter_cons]
      simp [ih]

/-- Claim C10 (confirmed): the overall accessibility score equals 100 times
the number of passing checks among the seven fixed checks divided by 7, is
always between 0 and 100, and equals 100 exactly when all seven checks
pass. -/
theorem overallScore_bounds (a : ReportInput) :
    overallScore a
      = 100 * (((checks a).filter (fun b => b)).length : ℚ) / 7
    ∧ 0 ≤ overallScore a
    ∧ overallScore a ≤ 100
    ∧ (overallScore a = 100 ↔ ∀ b ∈ checks a, b = true) := by
  have hlen : (checks a).length = 7 := rfl
  have hle : ((checks a).filter (fun b => b)).length ≤ 7 := by
    have := List.length_filter_le (fun b => b) (checks a)
    omega
  have hcast : (((checks a).filter (fun b => b)).length : ℚ) ≤ 7 := by
    exact_mod_cast hle
  have hform : overallScore a
      = 100 * (((checks a).filter (fun b => b)).length : ℚ) / 7 := by
    rw [overallScore, hlen]
    push_cast
    ring
  refine ⟨hform, ?_, ?_, ?_⟩
  · rw [hform]
    positivity
  · rw [hform, div_le_iff₀ (by norm_num : (0 : ℚ) < 7)]
    linarith
  · rw [hform, ← filter_true_length_eq_length, hlen]
    rw [div_eq_iff (by norm_num : (7 : ℚ) ≠ 0)]
    constructor
    · intro h
      have : (((checks a).filter (fun b => b)).length : ℚ) = 7 := by
        linarith
      exact_mod_cast this
    · intro h
      have : (((checks a).filter (fun b => b)).length : ℚ) = 7 := by
        exact_mod_cast h
      linarith

end AccessibilityHelper
